/-
Verification of the cooldown/timer core of the LoL enemy-timer app.

Shallow embedding conventions:
* JavaScript `number` is modelled as `ℚ` (exact arithmetic); timestamps are
  epoch milliseconds, cooldowns are seconds, as in the source.
* `Date.now()` is passed explicitly as a `now : ℚ` argument to every
  operation that reads the clock.
* `null` / missing values are `Option`.
* The Zustand store state is the `enemies` array of exactly five slots,
  modelled as `Fin 5 → EnemyChampion`; every mutation produces a fresh
  snapshot (copy-on-write), modelled by building a new function.
* The full store variant lives at top level
  (src/LoLTimerApp/store/useTimerStore.ts); the simplified variant
  (src/unnamed/part_003, third document) lives in namespace `Simplified`.
* UI press handlers from the champion-card component (src/unnamed/part_003,
  first document) are modelled as `handleUltPress`, `handleSpellPress`,
  `handleHasteChange`.
-/
import Mathlib

/-- Summoner-spell slot selector (the TS literal type `1 | 2`). -/
inductive SpellSlot where
  | s1
  | s2
deriving DecidableEq, Repr

/-- The four discrete level breakpoints the toggle cycles through
(TS type `ChampionLevel = 1 | 6 | 11 | 16`). -/
inductive ChampionLevel where
  | l1
  | l6
  | l11
  | l16
deriving DecidableEq, BEq, Repr

/-- `const LEVEL_CYCLE: ChampionLevel[] = [1, 6, 11, 16]`. -/
def LEVEL_CYCLE : List ChampionLevel :=
  [ChampionLevel.l1, ChampionLevel.l6, ChampionLevel.l11, ChampionLevel.l16]

/-- Maps a `ChampionLevel` to the index inside `ultBaseCooldowns`;
level 1 has no ultimate, so `none` (TS `ultCooldownIndex`). -/
def ultCooldownIndex (level : ChampionLevel) : Option (Fin 3) :=
  match level with
  | ChampionLevel.l1 => none
  | ChampionLevel.l6 => some 0
  | ChampionLevel.l11 => some 1
  | ChampionLevel.l16 => some 2

/-- The TS tuple `[number, number, number]` of base ultimate cooldowns. -/
structure Cooldowns where
  c0 : ℚ
  c1 : ℚ
  c2 : ℚ
deriving DecidableEq, Repr

/-- Indexing into the cooldown triple (TS `ultBaseCooldowns[idx]`). -/
def Cooldowns.get (c : Cooldowns) (i : Fin 3) : ℚ :=
  match i with
  | 0 => c.c0
  | 1 => c.c1
  | 2 => c.c2

/-- A single enemy champion slot (TS interface `EnemyChampion`,
full store variant). -/
structure EnemyChampion where
  id : String
  name : String
  ultBaseCooldowns : Cooldowns
  activeUltCooldown : Option ℚ
  currentLevel : ChampionLevel
  abilityHaste : ℚ
  ionianBoots : Bool
  cosmicInsight : Bool
  summonerHaste : ℚ
  spell1Id : String
  spell2Id : String
  spell1BaseCooldown : ℚ
  spell2BaseCooldown : ℚ
  ultEndTime : Option ℚ
  spell1EndTime : Option ℚ
  spell2EndTime : Option ℚ
deriving DecidableEq, Repr

/-- The persisted store state: five enemy champion slots, indices 0–4. -/
structure TimerStoreState where
  enemies : Fin 5 → EnemyChampion

instance : DecidableEq TimerStoreState := fun a b =>
  if h : a.enemies = b.enemies then
    Decidable.isTrue (by cases a; cases b; simpa using h)
  else
    Decidable.isFalse (by intro hh; exact h (congrArg TimerStoreState.enemies hh))

/-- TS `createEmptyChampion()`. -/
def createEmptyChampion : EnemyChampion :=
  { id := ""
    name := ""
    ultBaseCooldowns := ⟨0, 0, 0⟩
    activeUltCooldown := none
    currentLevel := ChampionLevel.l1
    abilityHaste := 0
    ionianBoots := false
    cosmicInsight := false
    summonerHaste := 0
    spell1Id := "SummonerFlash"
    spell2Id := "SummonerFlash"
    spell1BaseCooldown := 300
    spell2BaseCooldown := 300
    ultEndTime := none
    spell1EndTime := none
    spell2EndTime := none }

/-- TS `deriveActiveUltCooldown(level, ultBaseCooldowns)`:
`idx !== null ? ultBaseCooldowns[idx] : null`. -/
def deriveActiveUltCooldown (level : ChampionLevel)
    (ultBaseCooldowns : Cooldowns) : Option ℚ :=
  match ultCooldownIndex level with
  | some idx => some (ultBaseCooldowns.get idx)
  | none => none

/-- TS `deriveSummonerHaste(ionianBoots, cosmicInsight)`:
`(ionianBoots ? 12 : 0) + (cosmicInsight ? 18 : 0)`. -/
def deriveSummonerHaste (ionianBoots : Bool) (cosmicInsight : Bool) : ℚ :=
  (if ionianBoots then 12 else 0) + (if cosmicInsight then 18 else 0)

/-- TS `validIndex(index)`: `if (index < 0 || index > 4) return null; return index`.
The in-range result is returned as a `Fin 5` so it can index the array. -/
def validIndex (index : ℤ) : Option (Fin 5) :=
  if h : index < 0 ∨ 4 < index then none
  else some ⟨index.toNat, by omega⟩

/-- Copy-on-write slot replacement: `enemies = [...state.enemies]; enemies[i] = c`. -/
def setSlot (s : TimerStoreState) (i : Fin 5) (c : EnemyChampion) : TimerStoreState :=
  ⟨fun j => if j = i then c else s.enemies j⟩

/-- Initial store state: `Array.from({ length: 5 }, createEmptyChampion)`. -/
def initialState : TimerStoreState :=
  ⟨fun _ => createEmptyChampion⟩

/-- TS `calculateCooldown(base, haste)`: `base / (1 + haste / 100)`. -/
def calculateCooldown (base : ℚ) (haste : ℚ) : ℚ :=
  base / (1 + haste / 100)

/-- TS `Partial<EnemyChampion>`: each field optionally present. -/
structure EnemyChampionPatch where
  id : Option String := none
  name : Option String := none
  ultBaseCooldowns : Option Cooldowns := none
  activeUltCooldown : Option (Option ℚ) := none
  currentLevel : Option ChampionLevel := none
  abilityHaste : Option ℚ := none
  ionianBoots : Option Bool := none
  cosmicInsight : Option Bool := none
  summonerHaste : Option ℚ := none
  spell1Id : Option String := none
  spell2Id : Option String := none
  spell1BaseCooldown : Option ℚ := none
  spell2BaseCooldown : Option ℚ := none
  ultEndTime : Option (Option ℚ) := none
  spell1EndTime : Option (Option ℚ) := none
  spell2EndTime : Option (Option ℚ) := none
deriving DecidableEq, Repr

/-- The TS object spread `{ ...enemies[i], ...data }`: a present patch field
overrides the old value. -/
def applyPatch (c : EnemyChampion) (p : EnemyChampionPatch) : EnemyChampion :=
  { id := p.id.getD c.id
    name := p.name.getD c.name
    ultBaseCooldowns := p.ultBaseCooldowns.getD c.ultBaseCooldowns
    activeUltCooldown := p.activeUltCooldown.getD c.activeUltCooldown
    currentLevel := p.currentLevel.getD c.currentLevel
    abilityHaste := p.abilityHaste.getD c.abilityHaste
    ionianBoots := p.ionianBoots.getD c.ionianBoots
    cosmicInsight := p.cosmicInsight.getD c.cosmicInsight
    summonerHaste := p.summonerHaste.getD c.summonerHaste
    spell1Id := p.spell1Id.getD c.spell1Id
    spell2Id := p.spell2Id.getD c.spell2Id
    spell1BaseCooldown := p.spell1BaseCooldown.getD c.spell1BaseCooldown
    spell2BaseCooldown := p.spell2BaseCooldown.getD c.spell2BaseCooldown
    ultEndTime := p.ultEndTime.getD c.ultEndTime
    spell1EndTime := p.spell1EndTime.getD c.spell1EndTime
    spell2EndTime := p.spell2EndTime.getD c.spell2EndTime }

/-- TS `setChampion(index, data)`: partial merge, then keep
`activeUltCooldown` in sync with the merged level and cooldowns. -/
def setChampion (index : ℤ) (data : EnemyChampionPatch)
    (s : TimerStoreState) : TimerStoreState :=
  match validIndex index with
  | none => s
  | some i =>
    let updated := applyPatch (s.enemies i) data
    let updated :=
      { updated with
        activeUltCooldown :=
          deriveActiveUltCooldown updated.currentLevel updated.ultBaseCooldowns }
    setSlot s i updated

/-- One ability entry of a Data Dragon champion-detail response
(only the per-rank `cooldown` array matters to the store). -/
structure DetailSpell where
  cooldown : List ℚ
deriving DecidableEq, Repr

/-- The Data Dragon champion-detail record consumed by `setChampionData`. -/
structure ChampionDetail where
  id : String
  name : String
  spells : List DetailSpell
deriving DecidableEq, Repr

/-- TS `setChampionData(index, detail)`: the ultimate is the 4th spell
(`detail.spells[3]`); `cd = ultSpell?.cooldown ?? [0,0,0]`; each of
`cd[0..2] ?? 0`; the slot is replaced wholesale with level 6 and
`activeUltCooldown = ultBaseCooldowns[0]`. -/
def setChampionData (index : ℤ) (detail : ChampionDetail)
    (s : TimerStoreState) : TimerStoreState :=
  match validIndex index with
  | none => s
  | some i =>
    let cd : List ℚ :=
      match detail.spells.get? 3 with
      | some ultSpell => ultSpell.cooldown
      | none => [0, 0, 0]
    let ultBaseCooldowns : Cooldowns :=
      ⟨(cd.get? 0).getD 0, (cd.get? 1).getD 0, (cd.get? 2).getD 0⟩
    setSlot s i
      { createEmptyChampion with
        id := detail.id
        name := detail.name
        ultBaseCooldowns := ultBaseCooldowns
        currentLevel := ChampionLevel.l6
        activeUltCooldown := some ultBaseCooldowns.c0 }

/-- TS `clearChampion(index)`. -/
def clearChampion (index : ℤ) (s : TimerStoreState) : TimerStoreState :=
  match validIndex index with
  | none => s
  | some i => setSlot s i createEmptyChampion

/-- TS `cycleLevel(index)`: `nextIdx = (LEVEL_CYCLE.indexOf(level) + 1) % 4`,
then recompute `activeUltCooldown` for the new level. The `getD` default is
never reached: `indexOf` always lands in `[0, 3]`. -/
def cycleLevel (index : ℤ) (s : TimerStoreState) : TimerStoreState :=
  match validIndex index with
  | none => s
  | some i =>
    let champ := s.enemies i
    let currentIdx := LEVEL_CYCLE.indexOf champ.currentLevel
    let nextIdx := (currentIdx + 1) % LEVEL_CYCLE.length
    let newLevel := (LEVEL_CYCLE.get? nextIdx).getD ChampionLevel.l1
    setSlot s i
      { champ with
        currentLevel := newLevel
        activeUltCooldown :=
          deriveActiveUltCooldown newLevel champ.ultBaseCooldowns }

/-- TS `setAbilityHaste(index, haste)`: stores the argument verbatim. -/
def setAbilityHaste (index : ℤ) (haste : ℚ) (s : TimerStoreState) : TimerStoreState :=
  match validIndex index with
  | none => s
  | some i => setSlot s i { s.enemies i with abilityHaste := haste }

/-- TS `toggleIonianBoots(index)`. -/
def toggleIonianBoots (index : ℤ) (s : TimerStoreState) : TimerStoreState :=
  match validIndex index with
  | none => s
  | some i =>
    let champ := s.enemies i
    let boots := !champ.ionianBoots
    setSlot s i
      { champ with
        ionianBoots := boots
        summonerHaste := deriveSummonerHaste boots champ.cosmicInsight }

/-- TS `toggleCosmicInsight(index)`. -/
def toggleCosmicInsight (index : ℤ) (s : TimerStoreState) : TimerStoreState :=
  match validIndex index with
  | none => s
  | some i =>
    let champ := s.enemies i
    let cosmic := !champ.cosmicInsight
    setSlot s i
      { champ with
        cosmicInsight := cosmic
        summonerHaste := deriveSummonerHaste champ.ionianBoots cosmic }

/-- TS `setSummonerSpell(index, slot, spellId, cooldown)`: replaces the
spell id and base cooldown for that slot and resets its timer to `null`. -/
def setSummonerSpell (index : ℤ) (slot : SpellSlot) (spellId : String)
    (cooldown : ℚ) (s : TimerStoreState) : TimerStoreState :=
  match validIndex index with
  | none => s
  | some i =>
    match slot with
    | SpellSlot.s1 =>
      setSlot s i
        { s.enemies i with
          spell1Id := spellId
          spell1BaseCooldown := cooldown
          spell1EndTime := none }
    | SpellSlot.s2 =>
      setSlot s i
        { s.enemies i with
          spell2Id := spellId
          spell2BaseCooldown := cooldown
          spell2EndTime := none }

/-- TS `startUltTimer(index)`: guarded only by `activeUltCooldown === null`;
sets `ultEndTime = Date.now() + effectiveCD * 1000`. -/
def startUltTimer (index : ℤ) (now : ℚ) (s : TimerStoreState) : TimerStoreState :=
  match validIndex index with
  | none => s
  | some i =>
    let champ := s.enemies i
    match champ.activeUltCooldown with
    | none => s
    | some activeCD =>
      let effectiveCD := calculateCooldown activeCD champ.abilityHaste
      setSlot s i { champ with ultEndTime := some (now + effectiveCD * 1000) }

/-- Selects the stored base cooldown for a spell slot
(TS `spellSlot === 1 ? champ.spell1BaseCooldown : champ.spell2BaseCooldown`). -/
def EnemyChampion.spellBaseCooldown (c : EnemyChampion) (slot : SpellSlot) : ℚ :=
  match slot with
  | SpellSlot.s1 => c.spell1BaseCooldown
  | SpellSlot.s2 => c.spell2BaseCooldown

/-- Selects the stored end-time for a spell slot. -/
def EnemyChampion.spellEndTime (c : EnemyChampion) (slot : SpellSlot) : Option ℚ :=
  match slot with
  | SpellSlot.s1 => c.spell1EndTime
  | SpellSlot.s2 => c.spell2EndTime

/-- Record update of one spell end-time, the TS computed key
`[key]: endTime` with `key = spell1EndTime | spell2EndTime`. -/
def EnemyChampion.withSpellEndTime (c : EnemyChampion) (slot : SpellSlot)
    (endTime : Option ℚ) : EnemyChampion :=
  match slot with
  | SpellSlot.s1 => { c with spell1EndTime := endTime }
  | SpellSlot.s2 => { c with spell2EndTime := endTime }

/-- TS `startSpellTimer(index, spellSlot)` (full variant): refuses when the
stored base cooldown is `<= 0`; applies the summoner-spell haste. -/
def startSpellTimer (index : ℤ) (spellSlot : SpellSlot) (now : ℚ)
    (s : TimerStoreState) : TimerStoreState :=
  match validIndex index with
  | none => s
  | some i =>
    let champ := s.enemies i
    let baseCooldown := champ.spellBaseCooldown spellSlot
    if baseCooldown ≤ 0 then s
    else
      let effectiveCD := calculateCooldown baseCooldown champ.summonerHaste
      let endTime := now + effectiveCD * 1000
      setSlot s i (champ.withSpellEndTime spellSlot (some endTime))

/-- TS `clearUltTimer(index)`. -/
def clearUltTimer (index : ℤ) (s : TimerStoreState) : TimerStoreState :=
  match validIndex index with
  | none => s
  | some i => setSlot s i { s.enemies i with ultEndTime := none }

/-- TS `clearSpellTimer(index, spellSlot)`. -/
def clearSpellTimer (index : ℤ) (spellSlot : SpellSlot)
    (s : TimerStoreState) : TimerStoreState :=
  match validIndex index with
  | none => s
  | some i => setSlot s i ((s.enemies i).withSpellEndTime spellSlot none)

/-- TS `resetAll()`. -/
def resetAll (_s : TimerStoreState) : TimerStoreState :=
  ⟨fun _ => createEmptyChampion⟩

/-- Rehydration cleaning of one end-time field, the TS conditional
`champ.ultEndTime && champ.ultEndTime > now ? champ.ultEndTime : null`.
JavaScript truthiness makes both `null` and `0` fall to the `null` branch. -/
def cleanEndTime (e : Option ℚ) (now : ℚ) : Option ℚ :=
  match e with
  | none => none
  | some v => if v ≠ 0 ∧ now < v then some v else none

/-- TS `onRehydrateStorage` callback body: map every slot, normalizing the
three end-times that are not strictly in the future to `null`. -/
def onRehydrateStorage (now : ℚ) (s : TimerStoreState) : TimerStoreState :=
  ⟨fun j =>
    let champ := s.enemies j
    { champ with
      ultEndTime := cleanEndTime champ.ultEndTime now
      spell1EndTime := cleanEndTime champ.spell1EndTime now
      spell2EndTime := cleanEndTime champ.spell2EndTime now }⟩

/-- Value produced by one tick of the `useCountdown` hook:
`0` when inactive, else `Math.max(0, Math.ceil((endTime - Date.now()) / 1000))`. -/
def useCountdown (endTime : Option ℚ) (now : ℚ) : ℤ :=
  match endTime with
  | none => 0
  | some e => max 0 (Int.ceil ((e - now) / 1000))

/-- Champion-card handler `handleHasteChange(text)` (src/unnamed/part_003):
`parsed = parseInt(text, 10)`, modelled as `Option ℤ` (`none` = `NaN`), then
`setAbilityHaste(index, Number.isNaN(parsed) ? 0 : Math.max(0, parsed))`. -/
def handleHasteChange (index : Fin 5) (parsed : Option ℤ)
    (s : TimerStoreState) : TimerStoreState :=
  setAbilityHaste (index : ℤ)
    (match parsed with
     | none => 0
     | some p => ((max 0 p : ℤ) : ℚ))
    s

/-- Champion-card handler `handleUltPress` (src/unnamed/part_003): returns
early when there is no ult (`activeUltCooldown === null`) or when the timer
is already running (`ultEndTime !== null && ultEndTime > Date.now()`);
otherwise calls `startUltTimer`. The card's `index` prop ranges over 0–4. -/
def handleUltPress (index : Fin 5) (now : ℚ) (s : TimerStoreState) : TimerStoreState :=
  let champ := s.enemies index
  if champ.activeUltCooldown = none then s
  else
    match champ.ultEndTime with
    | some e => if now < e then s else startUltTimer (index : ℤ) now s
    | none => startUltTimer (index : ℤ) now s

/-- Champion-card handlers `handleSpell1Press` / `handleSpell2Press`
(src/unnamed/part_003): return early when that spell's timer is already
running, otherwise call `startSpellTimer`. -/
def handleSpellPress (index : Fin 5) (slot : SpellSlot) (now : ℚ)
    (s : TimerStoreState) : TimerStoreState :=
  match (s.enemies index).spellEndTime slot with
  | some e => if now < e then s else startSpellTimer (index : ℤ) slot now s
  | none => startSpellTimer (index : ℤ) slot now s

namespace Simplified

/-- A single enemy champion slot of the simplified store variant
(src/unnamed/part_003, third document): no summoner-spell identity,
cooldown or haste fields. -/
structure EnemyChampion where
  id : String
  name : String
  ultBaseCooldowns : Cooldowns
  activeUltCooldown : Option ℚ
  currentLevel : ChampionLevel
  abilityHaste : ℚ
  ultEndTime : Option ℚ
  spell1EndTime : Option ℚ
  spell2EndTime : Option ℚ
deriving DecidableEq, Repr

/-- The simplified variant's store state. -/
structure TimerStoreState where
  enemies : Fin 5 → Simplified.EnemyChampion

instance : DecidableEq Simplified.TimerStoreState := fun a b =>
  if h : a.enemies = b.enemies then
    Decidable.isTrue (by cases a; cases b; simpa using h)
  else
    Decidable.isFalse
      (by intro hh; exact h (congrArg Simplified.TimerStoreState.enemies hh))

/-- Simplified-variant `createEmptyChampion()`. -/
def createEmptyChampion : Simplified.EnemyChampion :=
  { id := ""
    name := ""
    ultBaseCooldowns := ⟨0, 0, 0⟩
    activeUltCooldown := none
    currentLevel := ChampionLevel.l1
    abilityHaste := 0
    ultEndTime := none
    spell1EndTime := none
    spell2EndTime := none }

/-- Copy-on-write slot replacement, simplified variant. -/
def setSlot (s : Simplified.TimerStoreState) (i : Fin 5)
    (c : Simplified.EnemyChampion) : Simplified.TimerStoreState :=
  ⟨fun j => if j = i then c else s.enemies j⟩

/-- Simplified-variant initial state. -/
def initialState : Simplified.TimerStoreState :=
  ⟨fun _ => Simplified.createEmptyChampion⟩

/-- Record update of one spell end-time, simplified variant. -/
def EnemyChampion.withSpellEndTime (c : Simplified.EnemyChampion)
    (slot : SpellSlot) (endTime : Option ℚ) : Simplified.EnemyChampion :=
  match slot with
  | SpellSlot.s1 => { c with spell1EndTime := endTime }
  | SpellSlot.s2 => { c with spell2EndTime := endTime }

/-- Selects the stored end-time for a spell slot, simplified variant. -/
def EnemyChampion.spellEndTime (c : Simplified.EnemyChampion)
    (slot : SpellSlot) : Option ℚ :=
  match slot with
  | SpellSlot.s1 => c.spell1EndTime
  | SpellSlot.s2 => c.spell2EndTime

/-- Simplified-variant `startSpellTimer(index, spellSlot, baseCooldown)`:
the caller passes the base cooldown; there is NO `baseCooldown <= 0` guard,
and the champion's ability haste is applied. -/
def startSpellTimer (index : ℤ) (spellSlot : SpellSlot) (baseCooldown : ℚ)
    (now : ℚ) (s : Simplified.TimerStoreState) : Simplified.TimerStoreState :=
  match validIndex index with
  | none => s
  | some i =>
    let effectiveCD := calculateCooldown baseCooldown (s.enemies i).abilityHaste
    let endTime := now + effectiveCD * 1000
    Simplified.setSlot s i ((s.enemies i).withSpellEndTime spellSlot (some endTime))

end Simplified

/-- A public mutation operation of the full store, with its arguments.
Clock-reading operations carry the `Date.now()` value they observe. -/
inductive Op where
  | setChampion (index : ℤ) (data : EnemyChampionPatch)
  | setChampionData (index : ℤ) (detail : ChampionDetail)
  | clearChampion (index : ℤ)
  | cycleLevel (index : ℤ)
  | setAbilityHaste (index : ℤ) (haste : ℚ)
  | toggleIonianBoots (index : ℤ)
  | toggleCosmicInsight (index : ℤ)
  | setSummonerSpell (index : ℤ) (slot : SpellSlot) (spellId : String) (cooldown : ℚ)
  | startUltTimer (index : ℤ) (now : ℚ)
  | startSpellTimer (index : ℤ) (slot : SpellSlot) (now : ℚ)
  | clearUltTimer (index : ℤ)
  | clearSpellTimer (index : ℤ) (slot : SpellSlot)
  | resetAll

/-- Dispatch one operation against the store state. -/
def stepOp (s : TimerStoreState) : Op → TimerStoreState
  | Op.setChampion index data => setChampion index data s
  | Op.setChampionData index detail => setChampionData index detail s
  | Op.clearChampion index => clearChampion index s
  | Op.cycleLevel index => cycleLevel index s
  | Op.setAbilityHaste index haste => setAbilityHaste index haste s
  | Op.toggleIonianBoots index => toggleIonianBoots index s
  | Op.toggleCosmicInsight index => toggleCosmicInsight index s
  | Op.setSummonerSpell index slot spellId cooldown =>
      setSummonerSpell index slot spellId cooldown s
  | Op.startUltTimer index now => startUltTimer index now s
  | Op.startSpellTimer index slot now => startSpellTimer index slot now s
  | Op.clearUltTimer index => clearUltTimer index s
  | Op.clearSpellTimer index slot => clearSpellTimer index slot s
  | Op.resetAll => resetAll s

/-- Run a sequence of public mutations from the initial store state. -/
def runOps (ops : List Op) : TimerStoreState :=
  ops.foldl stepOp initialState

/-- The derived-field invariant: in every slot, `activeUltCooldown` is
exactly what `deriveActiveUltCooldown` computes from the slot's level and
base cooldowns. -/
def UltConsistent (s : TimerStoreState) : Prop :=
  ∀ j : Fin 5,
    (s.enemies j).activeUltCooldown =
      deriveActiveUltCooldown (s.enemies j).currentLevel (s.enemies j).ultBaseCooldowns

/-- A coerced `Fin 5` index always passes the range guard. -/
theorem validIndex_coe (i : Fin 5) : validIndex (i : ℤ) = some i := by
  have h5 := i.isLt
  unfold validIndex
  rw [dif_neg (by omega)]
  exact congrArg some (Fin.ext (by simp))

/-- An index outside 0–4 fails the range guard. -/
theorem validIndex_out {index : ℤ} (h : index < 0 ∨ 4 < index) :
    validIndex index = none := by
  unfold validIndex
  exact dif_pos h

theorem setSlot_self (s : TimerStoreState) (i : Fin 5) (c : EnemyChampion) :
    (setSlot s i c).enemies i = c := by
  simp [setSlot]

theorem setSlot_other (s : TimerStoreState) (i : Fin 5) (c : EnemyChampion)
    {j : Fin 5} (h : j ≠ i) : (setSlot s i c).enemies j = s.enemies j := by
  simp [setSlot, h]

/-- C3: `calculateCooldown(base, haste)` equals `base / (1 + haste/100)`;
for `base > 0` it satisfies `calculateCooldown(base, 0) = base`, and for
`0 ≤ h1 < h2` it is strictly decreasing in haste. -/
theorem calculateCooldown_formula_and_strict_antitone
    (base h1 h2 : ℚ) (hbase : 0 < base) (h1nonneg : 0 ≤ h1) (hlt : h1 < h2) :
    calculateCooldown base h1 = base / (1 + h1 / 100) ∧
    calculateCooldown base 0 = base ∧
    calculateCooldown base h2 < calculateCooldown base h1 := by
  refine ⟨rfl, by simp [calculateCooldown], ?_⟩
  unfold calculateCooldown
  have d1 : (0 : ℚ) < 1 + h1 / 100 := by linarith
  have d2 : (0 : ℚ) < 1 + h2 / 100 := by linarith
  rw [div_lt_div_iff₀ d2 d1]
  nlinarith

/-- Witness for C3 at base 80, h1 = 0, h2 = 100. -/
theorem calculateCooldown_formula_and_strict_antitone_witness :
    (0 : ℚ) < 80 ∧ (0 : ℚ) ≤ 0 ∧ (0 : ℚ) < 100 ∧
    (calculateCooldown 80 0 = 80 / (1 + 0 / 100) ∧
     calculateCooldown 80 0 = 80 ∧
     calculateCooldown 80 100 < calculateCooldown 80 0) :=
  ⟨by norm_num, le_refl 0, by norm_num,
   calculateCooldown_formula_and_strict_antitone 80 0 100
     (by norm_num) (le_refl 0) (by norm_num)⟩

/-- C7: every index-taking mutation of the store is a silent no-op on an
out-of-range index (negative or greater than 4): the store state is
returned unchanged and no error is raised. -/
theorem outOfRange_mutations_noop (s : TimerStoreState) (index : ℤ)
    (hout : index < 0 ∨ 4 < index)
    (data : EnemyChampionPatch) (detail : ChampionDetail)
    (q now cd b : ℚ) (slot : SpellSlot) (sid : String)
    (t : Simplified.TimerStoreState) :
    setChampion index data s = s ∧
    setChampionData index detail s = s ∧
    clearChampion index s = s ∧
    cycleLevel index s = s ∧
    setAbilityHaste index q s = s ∧
    toggleIonianBoots index s = s ∧
    toggleCosmicInsight index s = s ∧
    setSummonerSpell index slot sid cd s = s ∧
    startUltTimer index now s = s ∧
    startSpellTimer index slot now s = s ∧
    clearUltTimer index s = s ∧
    clearSpellTimer index slot s = s ∧
    Simplified.startSpellTimer index slot b now t = t := by
  have hv : validIndex index = none := validIndex_out hout
  refine ⟨?_, ?_, ?_, ?_, ?_, ?_, ?_, ?_, ?_, ?_, ?_, ?_, ?_⟩ <;>
    simp [setChampion, setChampionData, clearChampion, cycleLevel,
      setAbilityHaste, toggleIonianBoots, toggleCosmicInsight,
      setSummonerSpell, startUltTimer, startSpellTimer, clearUltTimer,
      clearSpellTimer, Simplified.startSpellTimer, hv]

/-- Witness for C7 at the concrete out-of-range index 5. -/
theorem outOfRange_mutations_noop_witness :
    ((5 : ℤ) < 0 ∨ (4 : ℤ) < 5) ∧
    (setChampion 5 {} initialState = initialState ∧
     setChampionData 5 ⟨"a", "b", []⟩ initialState = initialState ∧
     clearChampion 5 initialState = initialState ∧
     cycleLevel 5 initialState = initialState ∧
     setAbilityHaste 5 1 initialState = initialState ∧
     toggleIonianBoots 5 initialState = initialState ∧
     toggleCosmicInsight 5 initialState = initialState ∧
     setSummonerSpell 5 SpellSlot.s1 "x" 3 initialState = initialState ∧
     startUltTimer 5 2 initialState = initialState ∧
     startSpellTimer 5 SpellSlot.s1 2 initialState = initialState ∧
     clearUltTimer 5 initialState = initialState ∧
     clearSpellTimer 5 SpellSlot.s1 initialState = initialState ∧
     Simplified.startSpellTimer 5 SpellSlot.s1 4 2 Simplified.initialState =
       Simplified.initialState) :=
  ⟨Or.inr (by norm_num),
   outOfRange_mutations_noop initialState 5 (Or.inr (by norm_num))
     {} ⟨"a", "b", []⟩ 1 2 3 4 SpellSlot.s1 "x" Simplified.initialState⟩

/-- C10: `startUltTimer` has no zero-duration refusal. A slot whose
`activeUltCooldown` is `some 0` is reachable (a detail record with no
fourth spell entry defaults every cooldown to 0 while `setChampionData`
still sets level 6), and `startUltTimer` then sets
`ultEndTime = now + 0`, an already-expired zero-length timer. -/
theorem startUltTimer_zero_cooldown_starts (s : TimerStoreState) (i : Fin 5)
    (now : ℚ) :
    ((setChampionData (i : ℤ) ⟨"", "", []⟩ s).enemies i).activeUltCooldown = some 0 ∧
    ((setChampionData (i : ℤ) ⟨"", "", []⟩ s).enemies i).currentLevel = ChampionLevel.l6 ∧
    ((s.enemies i).activeUltCooldown = some 0 →
      ((startUltTimer (i : ℤ) now s).enemies i).ultEndTime = some now) := by
  refine ⟨?_, ?_, ?_⟩
  · simp [setChampionData, validIndex_coe, setSlot_self]
  · simp [setChampionData, validIndex_coe, setSlot_self]
  · intro h
    simp [startUltTimer, validIndex_coe, h, calculateCooldown, setSlot_self]

/-- Witness for C10: populate slot 0 from an empty detail record, then
start the ult timer at clock 1000. -/
theorem startUltTimer_zero_cooldown_starts_witness :
    ((setChampionData ((0 : Fin 5) : ℤ) ⟨"", "", []⟩ initialState).enemies 0).activeUltCooldown
      = some 0 ∧
    ((startUltTimer ((0 : Fin 5) : ℤ) 1000
        (setChampionData ((0 : Fin 5) : ℤ) ⟨"", "", []⟩ initialState)).enemies 0).ultEndTime
      = some 1000 :=
  ⟨(startUltTimer_zero_cooldown_starts initialState 0 1000).1,
   (startUltTimer_zero_cooldown_starts
       (setChampionData ((0 : Fin 5) : ℤ) ⟨"", "", []⟩ initialState) 0 1000).2.2
     (startUltTimer_zero_cooldown_starts initialState 0 1000).1⟩

theorem cleanEndTime_expired {v now : ℚ} (h : v ≤ now) :
    cleanEndTime (some v) now = none := by
  have hc : ¬(v ≠ 0 ∧ now < v) := fun hh => absurd h (not_le.2 hh.2)
  simp only [cleanEndTime, if_neg hc]

theorem cleanEndTime_future {v now : ℚ} (h0 : 0 ≤ now) (h : now < v) :
    cleanEndTime (some v) now = some v := by
  have hz : v ≠ 0 := by intro e; rw [e] at h; exact absurd h0 (not_le.2 h)
  simp [cleanEndTime, hz, h]

/-- C2: rehydration normalizes every stored end-time at or before the load
clock to inactive (`null`), so a later remaining-seconds read yields 0;
end-times strictly in the future are preserved unchanged. -/
theorem onRehydrateStorage_sanitizes (s : TimerStoreState) (now : ℚ)
    (hnow : 0 ≤ now) (j : Fin 5) :
    (∀ v : ℚ, (s.enemies j).ultEndTime = some v →
      (v ≤ now → ((onRehydrateStorage now s).enemies j).ultEndTime = none ∧
        ∀ t : ℚ, useCountdown ((onRehydrateStorage now s).enemies j).ultEndTime t = 0) ∧
      (now < v → ((onRehydrateStorage now s).enemies j).ultEndTime = some v)) ∧
    (∀ v : ℚ, (s.enemies j).spell1EndTime = some v →
      (v ≤ now → ((onRehydrateStorage now s).enemies j).spell1EndTime = none ∧
        ∀ t : ℚ, useCountdown ((onRehydrateStorage now s).enemies j).spell1EndTime t = 0) ∧
      (now < v → ((onRehydrateStorage now s).enemies j).spell1EndTime = some v)) ∧
    (∀ v : ℚ, (s.enemies j).spell2EndTime = some v →
      (v ≤ now → ((onRehydrateStorage now s).enemies j).spell2EndTime = none ∧
        ∀ t : ℚ, useCountdown ((onRehydrateStorage now s).enemies j).spell2EndTime t = 0) ∧
      (now < v → ((onRehydrateStorage now s).enemies j).spell2EndTime = some v)) := by
  refine ⟨?_, ?_, ?_⟩ <;>
  · intro v hv
    constructor
    · intro hle
      have hc : cleanEndTime (some v) now = none := cleanEndTime_expired hle
      constructor
      · simp [onRehydrateStorage, hv, hc]
      · intro t
        simp [onRehydrateStorage, hv, hc, useCountdown]
    · intro hfut
      have hc : cleanEndTime (some v) now = some v := cleanEndTime_future hnow hfut
      simp [onRehydrateStorage, hv, hc]

/-- Witness for C2: a slot persisted with an ult end-time at 500 and a
spell-1 end-time at 2000, rehydrated at clock 1000. -/
theorem onRehydrateStorage_sanitizes_witness :
    (0 : ℚ) ≤ 1000 ∧
    ((onRehydrateStorage 1000 (setSlot initialState 0
        { createEmptyChampion with
          ultEndTime := some 500, spell1EndTime := some 2000 })).enemies 0).ultEndTime
      = none ∧
    useCountdown ((onRehydrateStorage 1000 (setSlot initialState 0
        { createEmptyChampion with
          ultEndTime := some 500, spell1EndTime := some 2000 })).enemies 0).ultEndTime
      1500 = 0 ∧
    ((onRehydrateStorage 1000 (setSlot initialState 0
        { createEmptyChampion with
          ultEndTime := some 500, spell1EndTime := some 2000 })).enemies 0).spell1EndTime
      = some 2000 := by
  have H := onRehydrateStorage_sanitizes (setSlot initialState 0
    { createEmptyChampion with
      ultEndTime := some 500, spell1EndTime := some 2000 }) 1000 (by norm_num) 0
  have h1 := (H.1 500 (by simp [setSlot_self])).1 (by norm_num)
  have h2 := (H.2.1 2000 (by simp [setSlot_self])).2 (by norm_num)
  exact ⟨by norm_num, h1.1, h1.2 1500, h2⟩

/-- C4: `cycleLevel` advances the slot's level one step along
1 → 6 → 11 → 16 → 1, recomputes the derived active ultimate cooldown from
the unchanged base cooldowns, leaves the three timer end-times of that slot
unchanged, and leaves every other slot exactly unchanged. -/
theorem cycleLevel_advances_and_preserves_timers (s : TimerStoreState) (i : Fin 5) :
    ((cycleLevel (i : ℤ) s).enemies i).currentLevel =
      (match (s.enemies i).currentLevel with
       | ChampionLevel.l1 => ChampionLevel.l6
       | ChampionLevel.l6 => ChampionLevel.l11
       | ChampionLevel.l11 => ChampionLevel.l16
       | ChampionLevel.l16 => ChampionLevel.l1) ∧
    ((cycleLevel (i : ℤ) s).enemies i).activeUltCooldown =
      deriveActiveUltCooldown ((cycleLevel (i : ℤ) s).enemies i).currentLevel
        (s.enemies i).ultBaseCooldowns ∧
    ((cycleLevel (i : ℤ) s).enemies i).ultBaseCooldowns = (s.enemies i).ultBaseCooldowns ∧
    ((cycleLevel (i : ℤ) s).enemies i).ultEndTime = (s.enemies i).ultEndTime ∧
    ((cycleLevel (i : ℤ) s).enemies i).spell1EndTime = (s.enemies i).spell1EndTime ∧
    ((cycleLevel (i : ℤ) s).enemies i).spell2EndTime = (s.enemies i).spell2EndTime ∧
    ∀ j : Fin 5, j ≠ i → (cycleLevel (i : ℤ) s).enemies j = s.enemies j := by
  refine ⟨?_, ?_, ?_, ?_, ?_, ?_, ?_⟩
  · rcases hL : (s.enemies i).currentLevel <;>
      simp [cycleLevel, validIndex_coe, setSlot_self, hL, LEVEL_CYCLE, List.indexOf] <;>
      decide
  · rcases hL : (s.enemies i).currentLevel <;>
      simp [cycleLevel, validIndex_coe, setSlot_self, hL, LEVEL_CYCLE, List.indexOf]
  · simp [cycleLevel, validIndex_coe, setSlot_self]
  · simp [cycleLevel, validIndex_coe, setSlot_self]
  · simp [cycleLevel, validIndex_coe, setSlot_self]
  · simp [cycleLevel, validIndex_coe, setSlot_self]
  · intro j hj
    simp [cycleLevel, validIndex_coe, setSlot_other _ _ _ hj]

/-- Witness for C4: cycling slot 0 of the initial state leaves slot 3
unchanged and advances level 1 to level 6. -/
theorem cycleLevel_advances_and_preserves_timers_witness :
    (cycleLevel ((0 : Fin 5) : ℤ) initialState).enemies 3 = initialState.enemies 3 ∧
    ((cycleLevel ((0 : Fin 5) : ℤ) initialState).enemies 0).ultEndTime =
      (initialState.enemies 0).ultEndTime :=
  ⟨(cycleLevel_advances_and_preserves_timers initialState 0).2.2.2.2.2.2 3 (by decide),
   (cycleLevel_advances_and_preserves_timers initialState 0).2.2.2.1⟩

theorem list_getD_eq_get?_getD {α : Type} (l : List α) (n : ℕ) (d : α) :
    l.getD n d = (l.get? n).getD d := by
  simp [List.getD_eq_getElem?_getD, List.get?_eq_getElem?]

/-- C6: `setChampionData(i, detail)` replaces slot `i` wholesale: the
per-tier ultimate base cooldowns come from `detail.spells[3].cooldown`
(missing entries defaulting to 0), the level is set to 6 (not 1), all
three end-times are inactive, `activeUltCooldown` is the first tier value,
and every other slot is unchanged. -/
theorem setChampionData_replaces_wholesale (s : TimerStoreState) (i : Fin 5)
    (detail : ChampionDetail) :
    (∀ k : Fin 3, ((setChampionData (i : ℤ) detail s).enemies i).ultBaseCooldowns.get k =
      (detail.spells.getD 3 ⟨[]⟩).cooldown.getD (k : ℕ) 0) ∧
    ((setChampionData (i : ℤ) detail s).enemies i).currentLevel = ChampionLevel.l6 ∧
    ((setChampionData (i : ℤ) detail s).enemies i).ultEndTime = none ∧
    ((setChampionData (i : ℤ) detail s).enemies i).spell1EndTime = none ∧
    ((setChampionData (i : ℤ) detail s).enemies i).spell2EndTime = none ∧
    ((setChampionData (i : ℤ) detail s).enemies i).activeUltCooldown =
      some (((setChampionData (i : ℤ) detail s).enemies i).ultBaseCooldowns.get 0) ∧
    ∀ j : Fin 5, j ≠ i → (setChampionData (i : ℤ) detail s).enemies j = s.enemies j := by
  refine ⟨?_, ?_, ?_, ?_, ?_, ?_, ?_⟩
  · intro k
    rcases hd : detail.spells[3]? with _ | u <;>
      fin_cases k <;>
      simp [setChampionData, validIndex_coe, setSlot_self, hd, Cooldowns.get,
        list_getD_eq_get?_getD, List.get?_eq_getElem?]
  · simp [setChampionData, validIndex_coe, setSlot_self]
  · simp [setChampionData, validIndex_coe, setSlot_self, createEmptyChampion]
  · simp [setChampionData, validIndex_coe, setSlot_self, createEmptyChampion]
  · simp [setChampionData, validIndex_coe, setSlot_self, createEmptyChampion]
  · simp [setChampionData, validIndex_coe, setSlot_self, Cooldowns.get]
  · intro j hj
    simp [setChampionData, validIndex_coe, setSlot_other _ _ _ hj]

/-- Witness for C6: a four-spell detail record assigned to slot 0; tier-1
cooldown 60 lands at index 1, the level is 6, and slot 2 is untouched. -/
theorem setChampionData_replaces_wholesale_witness :
    ((setChampionData ((0 : Fin 5) : ℤ) ⟨"Lux", "Lux",
        [⟨[10]⟩, ⟨[9]⟩, ⟨[8]⟩, ⟨[80, 60, 40]⟩]⟩ initialState).enemies 0).ultBaseCooldowns.get 1 =
      (([⟨[10]⟩, ⟨[9]⟩, ⟨[8]⟩, ⟨[80, 60, 40]⟩] : List DetailSpell).getD 3 ⟨[]⟩).cooldown.getD 1 0 ∧
    (([⟨[10]⟩, ⟨[9]⟩, ⟨[8]⟩, ⟨[80, 60, 40]⟩] : List DetailSpell).getD 3 ⟨[]⟩).cooldown.getD 1 0 = 60 ∧
    ((setChampionData ((0 : Fin 5) : ℤ) ⟨"Lux", "Lux",
        [⟨[10]⟩, ⟨[9]⟩, ⟨[8]⟩, ⟨[80, 60, 40]⟩]⟩ initialState).enemies 0).currentLevel =
      ChampionLevel.l6 ∧
    (setChampionData ((0 : Fin 5) : ℤ) ⟨"Lux", "Lux",
        [⟨[10]⟩, ⟨[9]⟩, ⟨[8]⟩, ⟨[80, 60, 40]⟩]⟩ initialState).enemies 2 =
      initialState.enemies 2 :=
  ⟨(setChampionData_replaces_wholesale initialState 0
      ⟨"Lux", "Lux", [⟨[10]⟩, ⟨[9]⟩, ⟨[8]⟩, ⟨[80, 60, 40]⟩]⟩).1 1,
   by decide,
   (setChampionData_replaces_wholesale initialState 0
      ⟨"Lux", "Lux", [⟨[10]⟩, ⟨[9]⟩, ⟨[8]⟩, ⟨[80, 60, 40]⟩]⟩).2.1,
   (setChampionData_replaces_wholesale initialState 0
      ⟨"Lux", "Lux", [⟨[10]⟩, ⟨[9]⟩, ⟨[8]⟩, ⟨[80, 60, 40]⟩]⟩).2.2.2.2.2.2 2 (by decide)⟩

theorem setSlot_setSlot (s : TimerStoreState) (i : Fin 5) (c d : EnemyChampion) :
    setSlot (setSlot s i c) i d = setSlot s i d := by
  unfold setSlot
  congr 1
  funext j
  by_cases hj : j = i <;> simp [hj]

/-- C1 counterexample: the store's `startUltTimer` has no already-running
guard. In a state whose slot-0 ult timer is still running (end-time 5000,
clock 0), calling start is not a no-op: it overwrites the end-time with
`now + effective * 1000 = 80000` and changes the store state. -/
theorem startUltTimer_overwrites_running_timer :
    ((setSlot initialState 0
        { createEmptyChampion with
          ultBaseCooldowns := ⟨80, 60, 40⟩
          currentLevel := ChampionLevel.l6
          activeUltCooldown := some 80
          ultEndTime := some 5000 }).enemies 0).ultEndTime = some 5000 ∧
    (0 : ℚ) < 5000 ∧
    ((startUltTimer 0 0 (setSlot initialState 0
        { createEmptyChampion with
          ultBaseCooldowns := ⟨80, 60, 40⟩
          currentLevel := ChampionLevel.l6
          activeUltCooldown := some 80
          ultEndTime := some 5000 })).enemies 0).ultEndTime = some 80000 ∧
    startUltTimer 0 0 (setSlot initialState 0
        { createEmptyChampion with
          ultBaseCooldowns := ⟨80, 60, 40⟩
          currentLevel := ChampionLevel.l6
          activeUltCooldown := some 80
          ultEndTime := some 5000 }) ≠
      setSlot initialState 0
        { createEmptyChampion with
          ultBaseCooldowns := ⟨80, 60, 40⟩
          currentLevel := ChampionLevel.l6
          activeUltCooldown := some 80
          ultEndTime := some 5000 } := by
  have h3 : ((startUltTimer 0 0 (setSlot initialState 0
      { createEmptyChampion with
        ultBaseCooldowns := ⟨80, 60, 40⟩
        currentLevel := ChampionLevel.l6
        activeUltCooldown := some 80
        ultEndTime := some 5000 })).enemies 0).ultEndTime = some 80000 := by
    norm_num [startUltTimer, validIndex, calculateCooldown, setSlot,
      initialState, createEmptyChampion]
  refine ⟨by decide, by norm_num, h3, ?_⟩
  intro h
  rw [h] at h3
  norm_num [setSlot] at h3

/-- C1 amended: the running-timer guard lives in the champion-card press
handlers, not in the store's start functions. The handlers are no-ops
while the timer runs (end-time > now); the store's start functions are
idempotent only in the sense that two starts at the same clock reading
compute the same end-time and leave the state of the first call unchanged. -/
theorem start_idempotent_at_fixed_clock_and_handler_guard
    (s : TimerStoreState) (i : Fin 5) (now : ℚ) (slot : SpellSlot) :
    (∀ e : ℚ, (s.enemies i).ultEndTime = some e → now < e →
      handleUltPress i now s = s) ∧
    (∀ e : ℚ, (s.enemies i).spellEndTime slot = some e → now < e →
      handleSpellPress i slot now s = s) ∧
    startUltTimer (i : ℤ) now (startUltTimer (i : ℤ) now s) =
      startUltTimer (i : ℤ) now s ∧
    startSpellTimer (i : ℤ) slot now (startSpellTimer (i : ℤ) slot now s) =
      startSpellTimer (i : ℤ) slot now s := by
  have hv := validIndex_coe i
  refine ⟨?_, ?_, ?_, ?_⟩
  · intro e he hlt
    by_cases hA : (s.enemies i).activeUltCooldown = none <;>
      simp [handleUltPress, hA, he, hlt]
  · intro e he hlt
    simp [handleSpellPress, he, hlt]
  · rcases hA : (s.enemies i).activeUltCooldown with _ | cd
    · simp [startUltTimer, hv, hA]
    · simp [startUltTimer, hv, hA, setSlot_self, setSlot_setSlot]
  · rcases slot with _ | _
    · by_cases hb : (s.enemies i).spell1BaseCooldown ≤ 0
      · simp [startSpellTimer, hv, EnemyChampion.spellBaseCooldown, hb]
      · simp [startSpellTimer, hv, EnemyChampion.spellBaseCooldown,
          EnemyChampion.withSpellEndTime, hb, setSlot_self, setSlot_setSlot]
    · by_cases hb : (s.enemies i).spell2BaseCooldown ≤ 0
      · simp [startSpellTimer, hv, EnemyChampion.spellBaseCooldown, hb]
      · simp [startSpellTimer, hv, EnemyChampion.spellBaseCooldown,
          EnemyChampion.withSpellEndTime, hb, setSlot_self, setSlot_setSlot]

/-- Witness for the amended C1: a slot with a running ult timer (end 5000)
and a running spell-1 timer (end 6000), pressed and double-started at
clock 0. -/
theorem start_idempotent_at_fixed_clock_and_handler_guard_witness :
    handleUltPress 0 0 (setSlot initialState 0
      { createEmptyChampion with
        ultBaseCooldowns := ⟨80, 60, 40⟩
        currentLevel := ChampionLevel.l6
        activeUltCooldown := some 80
        ultEndTime := some 5000
        spell1EndTime := some 6000 }) =
      setSlot initialState 0
        { createEmptyChampion with
          ultBaseCooldowns := ⟨80, 60, 40⟩
          currentLevel := ChampionLevel.l6
          activeUltCooldown := some 80
          ultEndTime := some 5000
          spell1EndTime := some 6000 } ∧
    handleSpellPress 0 SpellSlot.s1 0 (setSlot initialState 0
      { createEmptyChampion with
        ultBaseCooldowns := ⟨80, 60, 40⟩
        currentLevel := ChampionLevel.l6
        activeUltCooldown := some 80
        ultEndTime := some 5000
        spell1EndTime := some 6000 }) =
      setSlot initialState 0
        { createEmptyChampion with
          ultBaseCooldowns := ⟨80, 60, 40⟩
          currentLevel := ChampionLevel.l6
          activeUltCooldown := some 80
          ultEndTime := some 5000
          spell1EndTime := some 6000 } ∧
    startUltTimer ((0 : Fin 5) : ℤ) 0 (startUltTimer ((0 : Fin 5) : ℤ) 0
        (setSlot initialState 0
          { createEmptyChampion with
            ultBaseCooldowns := ⟨80, 60, 40⟩
            currentLevel := ChampionLevel.l6
            activeUltCooldown := some 80
            ultEndTime := some 5000
            spell1EndTime := some 6000 })) =
      startUltTimer ((0 : Fin 5) : ℤ) 0 (setSlot initialState 0
        { createEmptyChampion with
          ultBaseCooldowns := ⟨80, 60, 40⟩
          currentLevel := ChampionLevel.l6
          activeUltCooldown := some 80
          ultEndTime := some 5000
          spell1EndTime := some 6000 }) :=
  ⟨(start_idempotent_at_fixed_clock_and_handler_guard (setSlot initialState 0
      { createEmptyChampion with
        ultBaseCooldowns := ⟨80, 60, 40⟩
        currentLevel := ChampionLevel.l6
        activeUltCooldown := some 80
        ultEndTime := some 5000
        spell1EndTime := some 6000 }) 0 0 SpellSlot.s1).1 5000 (by decide) (by norm_num),
   (start_idempotent_at_fixed_clock_and_handler_guard (setSlot initialState 0
      { createEmptyChampion with
        ultBaseCooldowns := ⟨80, 60, 40⟩
        currentLevel := ChampionLevel.l6
        activeUltCooldown := some 80
        ultEndTime := some 5000
        spell1EndTime := some 6000 }) 0 0 SpellSlot.s1).2.1 6000 (by decide) (by norm_num),
   (start_idempotent_at_fixed_clock_and_handler_guard (setSlot initialState 0
      { createEmptyChampion with
        ultBaseCooldowns := ⟨80, 60, 40⟩
        currentLevel := ChampionLevel.l6
        activeUltCooldown := some 80
        ultEndTime := some 5000
        spell1EndTime := some 6000 }) 0 0 SpellSlot.s1).2.2.1⟩

/-- C8 counterexample: the store's `setAbilityHaste` performs no clamping.
Calling it with −5 stores −5, so the slot's abilityHaste is negative, not 0. -/
theorem setAbilityHaste_stores_negative :
    ((setAbilityHaste 0 (-5) initialState).enemies 0).abilityHaste = -5 ∧
    ¬ (0 : ℚ) ≤ ((setAbilityHaste 0 (-5) initialState).enemies 0).abilityHaste := by
  constructor
  · norm_num [setAbilityHaste, validIndex, setSlot, initialState, createEmptyChampion]
  · norm_num [setAbilityHaste, validIndex, setSlot, initialState, createEmptyChampion]

/-- C8 amended: `setAbilityHaste` stores its argument verbatim; the ≥ 0
clamp (and the NaN-to-0 coercion) lives in the champion-card input handler
`handleHasteChange`, so every value that reaches the store through that
handler is non-negative: equal to the parsed value when ≥ 0, and 0 when
the parse is negative or not a number. -/
theorem setAbilityHaste_verbatim_handler_clamps
    (s : TimerStoreState) (i : Fin 5) (v : ℚ) (parsed : Option ℤ) :
    ((setAbilityHaste (i : ℤ) v s).enemies i).abilityHaste = v ∧
    (0 : ℚ) ≤ ((handleHasteChange i parsed s).enemies i).abilityHaste ∧
    (∀ p : ℤ, parsed = some p → 0 ≤ p →
      ((handleHasteChange i parsed s).enemies i).abilityHaste = (p : ℚ)) ∧
    (∀ p : ℤ, parsed = some p → p < 0 →
      ((handleHasteChange i parsed s).enemies i).abilityHaste = 0) ∧
    (parsed = none → ((handleHasteChange i parsed s).enemies i).abilityHaste = 0) := by
  have hv := validIndex_coe i
  refine ⟨?_, ?_, ?_, ?_, ?_⟩
  · simp [setAbilityHaste, hv, setSlot_self]
  · rcases parsed with _ | p
    · simp [handleHasteChange, setAbilityHaste, hv, setSlot_self]
    · simp only [handleHasteChange, setAbilityHaste, hv, setSlot_self]
      exact_mod_cast le_max_left 0 p
  · intro p hp hge
    subst hp
    simp only [handleHasteChange, setAbilityHaste, hv, setSlot_self]
    exact_mod_cast congrArg Int.cast (max_eq_right hge)
  · intro p hp hneg
    subst hp
    simp only [handleHasteChange, setAbilityHaste, hv, setSlot_self]
    have : max 0 p = 0 := max_eq_left (le_of_lt hneg)
    rw [this]
    norm_num
  · intro hp
    subst hp
    simp [handleHasteChange, setAbilityHaste, hv, setSlot_self]

/-- Witness for the amended C8: a direct store write of 7 lands verbatim,
and the handler clamps an input parsed as −3 to 0. -/
theorem setAbilityHaste_verbatim_handler_clamps_witness :
    ((setAbilityHaste ((1 : Fin 5) : ℤ) 7 initialState).enemies 1).abilityHaste = 7 ∧
    ((handleHasteChange 1 (some (-3)) initialState).enemies 1).abilityHaste = 0 :=
  ⟨(setAbilityHaste_verbatim_handler_clamps initialState 1 7 (some (-3))).1,
   (setAbilityHaste_verbatim_handler_clamps initialState 1 7 (some (-3))).2.2.2.1
     (-3) rfl (by norm_num)⟩

/-- C9 counterexample: the simplified store variant's `startSpellTimer`
has no zero-duration guard. Starting spell 1 with base cooldown 0 at
clock 123 is not a no-op: it sets the end-time to 123 and changes the
store state. -/
theorem simplified_startSpellTimer_zero_not_noop :
    ((Simplified.startSpellTimer 0 SpellSlot.s1 0 123
        Simplified.initialState).enemies 0).spell1EndTime = some 123 ∧
    Simplified.startSpellTimer 0 SpellSlot.s1 0 123 Simplified.initialState ≠
      Simplified.initialState := by
  have h1 : ((Simplified.startSpellTimer 0 SpellSlot.s1 0 123
      Simplified.initialState).enemies 0).spell1EndTime = some 123 := by
    norm_num [Simplified.startSpellTimer, validIndex, calculateCooldown,
      Simplified.setSlot, Simplified.initialState, Simplified.createEmptyChampion,
      Simplified.EnemyChampion.withSpellEndTime]
  refine ⟨h1, ?_⟩
  intro h
  rw [h] at h1
  simp [Simplified.initialState, Simplified.createEmptyChampion] at h1

/-- C9 amended: only the full store variant refuses to start a spell timer
whose stored base cooldown is ≤ 0 (silent no-op); the simplified variant
starts the timer unconditionally, setting the end-time to
`now + effective * 1000` even for a base cooldown ≤ 0. -/
theorem spellTimer_zero_guard_full_variant_only
    (s : TimerStoreState) (t : Simplified.TimerStoreState) (i : Fin 5)
    (slot : SpellSlot) (now b : ℚ) :
    ((s.enemies i).spellBaseCooldown slot ≤ 0 →
      startSpellTimer (i : ℤ) slot now s = s) ∧
    ((Simplified.startSpellTimer (i : ℤ) slot b now t).enemies i) =
      Simplified.EnemyChampion.withSpellEndTime (t.enemies i) slot
        (some (now + calculateCooldown b (t.enemies i).abilityHaste * 1000)) := by
  have hv := validIndex_coe i
  constructor
  · intro hb
    simp [startSpellTimer, hv, hb]
  · rcases slot with _ | _ <;>
      simp [Simplified.startSpellTimer, hv, Simplified.setSlot,
        Simplified.EnemyChampion.withSpellEndTime]

/-- Witness for the amended C9: a full-variant slot whose spell-1 base
cooldown is 0 refuses to start, while the simplified variant started with
base 0 at clock 42 produces an immediately-expired timer. -/
theorem spellTimer_zero_guard_full_variant_only_witness :
    (((setSlot initialState 0
        { createEmptyChampion with spell1BaseCooldown := 0 }).enemies 0).spellBaseCooldown
        SpellSlot.s1 ≤ 0) ∧
    startSpellTimer ((0 : Fin 5) : ℤ) SpellSlot.s1 42
        (setSlot initialState 0
          { createEmptyChampion with spell1BaseCooldown := 0 }) =
      setSlot initialState 0
        { createEmptyChampion with spell1BaseCooldown := 0 } ∧
    ((Simplified.startSpellTimer ((0 : Fin 5) : ℤ) SpellSlot.s1 0 42
        Simplified.initialState).enemies 0) =
      Simplified.EnemyChampion.withSpellEndTime (Simplified.initialState.enemies 0)
        SpellSlot.s1
        (some (42 + calculateCooldown 0 (Simplified.initialState.enemies 0).abilityHaste * 1000)) :=
  ⟨by decide,
   (spellTimer_zero_guard_full_variant_only
      (setSlot initialState 0 { createEmptyChampion with spell1BaseCooldown := 0 })
      Simplified.initialState 0 SpellSlot.s1 42 0).1 (by decide),
   (spellTimer_zero_guard_full_variant_only
      (setSlot initialState 0 { createEmptyChampion with spell1BaseCooldown := 0 })
      Simplified.initialState 0 SpellSlot.s1 42 0).2⟩

theorem ultConsistent_stepOp {s : TimerStoreState} (h : UltConsistent s) :
    ∀ op : Op, UltConsistent (stepOp s op) := by
  intro op
  cases op with
  | setChampion index data =>
    rcases hvi : validIndex index with _ | i
    · simpa [stepOp, setChampion, hvi] using h
    · intro j
      by_cases hj : j = i
      · subst hj
        simp [stepOp, setChampion, hvi, setSlot_self]
      · simp only [stepOp, setChampion, hvi, setSlot_other _ _ _ hj]
        exact h j
  | setChampionData index detail =>
    rcases hvi : validIndex index with _ | i
    · simpa [stepOp, setChampionData, hvi] using h
    · intro j
      by_cases hj : j = i
      · subst hj
        simp [stepOp, setChampionData, hvi, setSlot_self,
          deriveActiveUltCooldown, ultCooldownIndex, Cooldowns.get]
      · simp only [stepOp, setChampionData, hvi, setSlot_other _ _ _ hj]
        exact h j
  | clearChampion index =>
    rcases hvi : validIndex index with _ | i
    · simpa [stepOp, clearChampion, hvi] using h
    · intro j
      by_cases hj : j = i
      · subst hj
        simp [stepOp, clearChampion, hvi, setSlot_self, createEmptyChampion,
          deriveActiveUltCooldown, ultCooldownIndex]
      · simp only [stepOp, clearChampion, hvi, setSlot_other _ _ _ hj]
        exact h j
  | cycleLevel index =>
    rcases hvi : validIndex index with _ | i
    · simpa [stepOp, cycleLevel, hvi] using h
    · intro j
      by_cases hj : j = i
      · subst hj
        simp [stepOp, cycleLevel, hvi, setSlot_self]
      · simp only [stepOp, cycleLevel, hvi, setSlot_other _ _ _ hj]
        exact h j
  | setAbilityHaste index q =>
    rcases hvi : validIndex index with _ | i
    · simpa [stepOp, setAbilityHaste, hvi] using h
    · intro j
      by_cases hj : j = i
      · subst hj
        simp only [stepOp, setAbilityHaste, hvi, setSlot_self]
        exact h _
      · simp only [stepOp, setAbilityHaste, hvi, setSlot_other _ _ _ hj]
        exact h j
  | toggleIonianBoots index =>
    rcases hvi : validIndex index with _ | i
    · simpa [stepOp, toggleIonianBoots, hvi] using h
    · intro j
      by_cases hj : j = i
      · subst hj
        simp only [stepOp, toggleIonianBoots, hvi, setSlot_self]
        exact h _
      · simp only [stepOp, toggleIonianBoots, hvi, setSlot_other _ _ _ hj]
        exact h j
  | toggleCosmicInsight index =>
    rcases hvi : validIndex index with _ | i
    · simpa [stepOp, toggleCosmicInsight, hvi] using h
    · intro j
      by_cases hj : j = i
      · subst hj
        simp only [stepOp, toggleCosmicInsight, hvi, setSlot_self]
        exact h _
      · simp only [stepOp, toggleCosmicInsight, hvi, setSlot_other _ _ _ hj]
        exact h j
  | setSummonerSpell index slot sid cd =>
    rcases hvi : validIndex index with _ | i
    · rcases slot with _ | _ <;> simpa [stepOp, setSummonerSpell, hvi] using h
    · intro j
      by_cases hj : j = i
      · subst hj
        rcases slot with _ | _ <;>
          · simp only [stepOp, setSummonerSpell, hvi, setSlot_self]
            exact h _
      · rcases slot with _ | _ <;>
          · simp only [stepOp, setSummonerSpell, hvi, setSlot_other _ _ _ hj]
            exact h j
  | startUltTimer index now =>
    rcases hvi : validIndex index with _ | i
    · simpa [stepOp, startUltTimer, hvi] using h
    · rcases hA : (s.enemies i).activeUltCooldown with _ | cd
      · simpa [stepOp, startUltTimer, hvi, hA] using h
      · intro j
        by_cases hj : j = i
        · subst hj
          simp only [stepOp, startUltTimer, hvi, hA, setSlot_self]
          rw [← hA]
          exact h _
        · simp only [stepOp, startUltTimer, hvi, hA, setSlot_other _ _ _ hj]
          exact h j
  | startSpellTimer index slot now =>
    rcases hvi : validIndex index with _ | i
    · simpa [stepOp, startSpellTimer, hvi] using h
    · by_cases hb : (s.enemies i).spellBaseCooldown slot ≤ 0
      · simpa [stepOp, startSpellTimer, hvi, hb] using h
      · intro j
        by_cases hj : j = i
        · subst hj
          rcases slot with _ | _ <;>
            · simp only [stepOp, startSpellTimer, hvi, if_neg hb, setSlot_self,
                EnemyChampion.withSpellEndTime]
              exact h _
        · rcases slot with _ | _ <;>
            · simp only [stepOp, startSpellTimer, hvi, if_neg hb,
                setSlot_other _ _ _ hj]
              exact h j
  | clearUltTimer index =>
    rcases hvi : validIndex index with _ | i
    · simpa [stepOp, clearUltTimer, hvi] using h
    · intro j
      by_cases hj : j = i
      · subst hj
        simp only [stepOp, clearUltTimer, hvi, setSlot_self]
        exact h _
      · simp only [stepOp, clearUltTimer, hvi, setSlot_other _ _ _ hj]
        exact h j
  | clearSpellTimer index slot =>
    rcases hvi : validIndex index with _ | i
    · simpa [stepOp, clearSpellTimer, hvi] using h
    · intro j
      by_cases hj : j = i
      · subst hj
        rcases slot with _ | _ <;>
          · simp only [stepOp, clearSpellTimer, hvi, setSlot_self,
              EnemyChampion.withSpellEndTime]
            exact h _
      · rcases slot with _ | _ <;>
          · simp only [stepOp, clearSpellTimer, hvi, setSlot_other _ _ _ hj]
            exact h j
  | resetAll =>
    intro j
    simp [stepOp, resetAll, createEmptyChampion, deriveActiveUltCooldown,
      ultCooldownIndex]

theorem ultConsistent_foldl (ops : List Op) :
    ∀ s : TimerStoreState, UltConsistent s → UltConsistent (ops.foldl stepOp s) := by
  induction ops with
  | nil => intro s h; exact h
  | cons op rest ih => intro s h; exact ih _ (ultConsistent_stepOp h op)

/-- C5: in every store state reachable from the initial state by any
sequence of public mutations, every slot's `activeUltCooldown` is
determined by its level and base cooldowns: `none` at level 1, and the
tier value (6 maps to index 0, 11 to 1, 16 to 2) otherwise — it is never
set independently of these two inputs. -/
theorem activeUltCooldown_always_derived (ops : List Op) (j : Fin 5) :
    (((runOps ops).enemies j).currentLevel = ChampionLevel.l1 →
      ((runOps ops).enemies j).activeUltCooldown = none) ∧
    (((runOps ops).enemies j).currentLevel = ChampionLevel.l6 →
      ((runOps ops).enemies j).activeUltCooldown =
        some ((runOps ops).enemies j).ultBaseCooldowns.c0) ∧
    (((runOps ops).enemies j).currentLevel = ChampionLevel.l11 →
      ((runOps ops).enemies j).activeUltCooldown =
        some ((runOps ops).enemies j).ultBaseCooldowns.c1) ∧
    (((runOps ops).enemies j).currentLevel = ChampionLevel.l16 →
      ((runOps ops).enemies j).activeUltCooldown =
        some ((runOps ops).enemies j).ultBaseCooldowns.c2) := by
  have hrun : UltConsistent (runOps ops) :=
    ultConsistent_foldl ops initialState (fun _ => rfl)
  have hj := hrun j
  refine ⟨?_, ?_, ?_, ?_⟩ <;> intro hL <;> rw [hj, hL] <;>
    simp [deriveActiveUltCooldown, ultCooldownIndex, Cooldowns.get]

/-- Witness for C5: after one `cycleLevel` on slot 0 the level is 6 and
the derived active cooldown is tier 0's value. -/
theorem activeUltCooldown_always_derived_witness :
    ((runOps [Op.cycleLevel 0]).enemies 0).currentLevel = ChampionLevel.l6 ∧
    ((runOps [Op.cycleLevel 0]).enemies 0).activeUltCooldown =
      some ((runOps [Op.cycleLevel 0]).enemies 0).ultBaseCooldowns.c0 :=
  ⟨by decide, (activeUltCooldown_always_derived [Op.cycleLevel 0] 0).2.1 (by decide)⟩
